import Mathlib

/-!
Shallow embedding of `custom_components/omada/sensor.py` from the
`marcusaram/ha-omada` integration.

Conventions of the embedding:

* Python `float` / `int` sensor values are modelled as `ℚ`; `datetime`
  values are modelled as seconds since the epoch (`ℤ`); Python `None` is
  a distinct `SensorValue.null` value.
* The controller object (`controller.py`, external to the sensor module)
  is a record of the attributes the sensor module reads: the `api`
  mappings, the `available` flag, the configuration options and the
  `is_client_allowed` predicate.  The ambient clock `dt_util.now()` is
  modelled as the field `now` of the controller record, read at the
  moment a value function runs.
* The MAC-indexed mappings `controller.api.clients`,
  `controller.api.known_clients` and `controller.api.devices` are
  association lists queried with `List.lookup`.
* A Python function that may raise `KeyError` (direct `mapping[mac]`
  indexing) is embedded as an `Option`-returning function: `none` is the
  raised exception, `some v` a normal return of `v`.
-/

namespace Omada

/-- Entity categories of the host framework; the sensor module only ever
uses the diagnostic category. -/
inductive EntityCategory where
  | diagnostic
  | config
  deriving DecidableEq

/-- Value published by a sensor: a number (Python float or int), a
timestamp (Python datetime, as seconds since the epoch), or Python
`None`. -/
inductive SensorValue where
  | num (q : ℚ)
  | time (t : ℤ)
  | null
  deriving DecidableEq

/-- Client record held in controller state (`controller.api.clients` and
`controller.api.known_clients`, external to the sensor module): the
counters the client value functions read. -/
structure OmadaClient where
  download : ℚ
  upload : ℚ
  rx_rate : ℚ
  tx_rate : ℚ
  uptime : ℤ
  deriving DecidableEq

/-- Device record held in controller state (`controller.api.devices`,
external to the sensor module): the counters and radio flags the device
value and supported functions read. -/
structure Device where
  download : ℚ
  upload : ℚ
  rx_rate : ℚ
  tx_rate : ℚ
  cpu : ℚ
  memory : ℚ
  uptime : ℤ
  clients : ℚ
  clients_2ghz : ℚ
  clients_5ghz : ℚ
  clients_6ghz : ℚ
  tx_utilization_2ghz : ℚ
  tx_utilization_5ghz : ℚ
  tx_utilization_6ghz : ℚ
  rx_utilization_2ghz : ℚ
  rx_utilization_5ghz : ℚ
  rx_utilization_6ghz : ℚ
  interference_utilization_2ghz : ℚ
  interference_utilization_5ghz : ℚ
  interference_utilization_6ghz : ℚ
  radio_enabled_2ghz : Bool
  radio_enabled_5ghz : Bool
  radio_enabled_6ghz : Bool
  deriving DecidableEq

/-- The `controller.api` object: MAC-indexed mappings of controller
state, as association lists. -/
structure OmadaApi where
  clients : List (String × OmadaClient)
  known_clients : List (String × OmadaClient)
  devices : List (String × Device)

/-- The attributes of the external `OmadaController` object that the
sensor module reads, plus the ambient clock `now` (the value
`dt_util.now()` returns, as seconds since the epoch). -/
structure OmadaController where
  api : OmadaApi
  available : Bool
  now : ℤ
  option_track_clients : Bool
  option_track_devices : Bool
  option_client_bandwidth_sensors : Bool
  option_client_uptime_sensor : Bool
  option_device_bandwidth_sensors : Bool
  option_device_statistics_sensors : Bool
  option_device_clients_sensors : Bool
  option_device_radio_utilization_sensors : Bool
  is_client_allowed : String → Bool

/-- Sensor key constant `DOWNLOAD_SENSOR`. -/
def DOWNLOAD_SENSOR : String := "downloaded"

/-- Sensor key constant `UPLOAD_SENSOR`. -/
def UPLOAD_SENSOR : String := "uploaded"

/-- Sensor key constant `UPTIME_SENSOR`. -/
def UPTIME_SENSOR : String := "uptime"

/-- Sensor key constant `RX_SENSOR`. -/
def RX_SENSOR : String := "rx"

/-- Sensor key constant `TX_SENSOR`. -/
def TX_SENSOR : String := "tx"

/-- Sensor key constant `CPU_USAGE_SENSOR`. -/
def CPU_USAGE_SENSOR : String := "cpu_usage"

/-- Sensor key constant `MEMORY_USAGE_SENSOR`. -/
def MEMORY_USAGE_SENSOR : String := "memory_usage"

/-- Sensor key constant `CLIENTS_SENSOR`. -/
def CLIENTS_SENSOR : String := "clients"

/-- Sensor key constant `CLIENTS_2G_SENSOR`. -/
def CLIENTS_2G_SENSOR : String := "2ghz_clients"

/-- Sensor key constant `CLIENTS_5G_SENSOR`. -/
def CLIENTS_5G_SENSOR : String := "5ghz_clients"

/-- Sensor key constant `CLIENTS_6G_SENSOR`. -/
def CLIENTS_6G_SENSOR : String := "6ghz_clients"

/-- Sensor key constant `TX_UTILIZATION_2G_SENSOR`. -/
def TX_UTILIZATION_2G_SENSOR : String := "2ghz_tx_utilization"

/-- Sensor key constant `TX_UTILIZATION_5G_SENSOR`. -/
def TX_UTILIZATION_5G_SENSOR : String := "5ghz_tx_utilization"

/-- Sensor key constant `TX_UTILIZATION_6G_SENSOR`. -/
def TX_UTILIZATION_6G_SENSOR : String := "6ghz_tx_utilization"

/-- Sensor key constant `RX_UTILIZATION_2G_SENSOR`. -/
def RX_UTILIZATION_2G_SENSOR : String := "2ghz_rx_utilization"

/-- Sensor key constant `RX_UTILIZATION_5G_SENSOR`. -/
def RX_UTILIZATION_5G_SENSOR : String := "5ghz_rx_utilization"

/-- Sensor key constant `RX_UTILIZATION_6G_SENSOR`. -/
def RX_UTILIZATION_6G_SENSOR : String := "6ghz_rx_utilization"

/-- Sensor key constant `INTER_UTILIZATION_2G_SENSOR`. -/
def INTER_UTILIZATION_2G_SENSOR : String := "2ghz_interference_utilization"

/-- Sensor key constant `INTER_UTILIZATION_5G_SENSOR`. -/
def INTER_UTILIZATION_5G_SENSOR : String := "5ghz_interference_utilization"

/-- Sensor key constant `INTER_UTILIZATION_6G_SENSOR`. -/
def INTER_UTILIZATION_6G_SENSOR : String := "6ghz_interference_utilization"

/-- Retrieve client total download value and convert to MB.  Reads
`controller.api.known_clients[mac].download`; `none` is the `KeyError`
raised when the MAC is absent from `known_clients`. -/
def client_download_value_fn (controller : OmadaController) (mac : String) :
    Option SensorValue :=
  (controller.api.known_clients.lookup mac).map fun cl =>
    .num (cl.download / 1000000)

/-- Retrieve client total upload value and convert to MB.  Reads
`controller.api.known_clients[mac].upload`; `none` is the `KeyError`
raised when the MAC is absent from `known_clients`. -/
def client_upload_value_fn (controller : OmadaController) (mac : String) :
    Option SensorValue :=
  (controller.api.known_clients.lookup mac).map fun cl =>
    .num (cl.upload / 1000000)

/-- Retrieve client current rx rate and convert to MB/s.  Guards absence:
returns 0 when the MAC is not in `controller.api.clients`. -/
def client_rx_value_fn (controller : OmadaController) (mac : String) :
    Option SensorValue :=
  match controller.api.clients.lookup mac with
  | some cl => some (.num (cl.rx_rate / 1000000))
  | none => some (.num 0)

/-- Retrieve client current tx rate and convert to MB/s.  Guards absence:
returns 0 when the MAC is not in `controller.api.clients`. -/
def client_tx_value_fn (controller : OmadaController) (mac : String) :
    Option SensorValue :=
  match controller.api.clients.lookup mac with
  | some cl => some (.num (cl.tx_rate / 1000000))
  | none => some (.num 0)

/-- Retrieve client connected time: `dt_util.now() - timedelta(seconds=uptime)`.
Guards absence: returns Python `None` when the MAC is not in
`controller.api.clients`. -/
def client_uptime_value_fn (controller : OmadaController) (mac : String) :
    Option SensorValue :=
  match controller.api.clients.lookup mac with
  | some cl => some (.time (controller.now - cl.uptime))
  | none => some .null

/-- Retrieve device total download value and convert to MB.  Reads
`controller.api.devices[mac].download`; `none` is the raised `KeyError`. -/
def device_download_value_fn (controller : OmadaController) (mac : String) :
    Option SensorValue :=
  (controller.api.devices.lookup mac).map fun d =>
    .num (d.download / 1000000)

/-- Retrieve device total upload value and convert to MB. -/
def device_upload_value_fn (controller : OmadaController) (mac : String) :
    Option SensorValue :=
  (controller.api.devices.lookup mac).map fun d =>
    .num (d.upload / 1000000)

/-- Retrieve device current rx rate and convert to MB/s. -/
def device_rx_value_fn (controller : OmadaController) (mac : String) :
    Option SensorValue :=
  (controller.api.devices.lookup mac).map fun d =>
    .num (d.rx_rate / 1000000)

/-- Retrieve device current tx rate and convert to MB/s. -/
def device_tx_value_fn (controller : OmadaController) (mac : String) :
    Option SensorValue :=
  (controller.api.devices.lookup mac).map fun d =>
    .num (d.tx_rate / 1000000)

/-- Retrieve device current cpu usage. -/
def device_cpu_value_fn (controller : OmadaController) (mac : String) :
    Option SensorValue :=
  (controller.api.devices.lookup mac).map fun d => .num d.cpu

/-- Retrieve device current memory usage. -/
def device_memory_value_fn (controller : OmadaController) (mac : String) :
    Option SensorValue :=
  (controller.api.devices.lookup mac).map fun d => .num d.memory

/-- Retrieve device connected time: `dt_util.now() - timedelta(seconds=uptime)`. -/
def device_uptime_value_fn (controller : OmadaController) (mac : String) :
    Option SensorValue :=
  (controller.api.devices.lookup mac).map fun d =>
    .time (controller.now - d.uptime)

/-- Retrieve device client count. -/
def device_clients_value_fn (controller : OmadaController) (mac : String) :
    Option SensorValue :=
  (controller.api.devices.lookup mac).map fun d => .num d.clients

/-- Retrieve device 2g client count. -/
def device_clients_2g_value_fn (controller : OmadaController) (mac : String) :
    Option SensorValue :=
  (controller.api.devices.lookup mac).map fun d => .num d.clients_2ghz

/-- Retrieve device 5g client count. -/
def device_clients_5g_value_fn (controller : OmadaController) (mac : String) :
    Option SensorValue :=
  (controller.api.devices.lookup mac).map fun d => .num d.clients_5ghz

/-- Retrieve device 6g client count. -/
def device_clients_6g_value_fn (controller : OmadaController) (mac : String) :
    Option SensorValue :=
  (controller.api.devices.lookup mac).map fun d => .num d.clients_6ghz

/-- Retrieve device 2GHz TX utilization. -/
def device_tx_utilization_2g_value_fn (controller : OmadaController) (mac : String) :
    Option SensorValue :=
  (controller.api.devices.lookup mac).map fun d => .num d.tx_utilization_2ghz

/-- Retrieve device 5GHz TX utilization. -/
def device_tx_utilization_5g_value_fn (controller : OmadaController) (mac : String) :
    Option SensorValue :=
  (controller.api.devices.lookup mac).map fun d => .num d.tx_utilization_5ghz

/-- Retrieve device 6GHz TX utilization. -/
def device_tx_utilization_6g_value_fn (controller : OmadaController) (mac : String) :
    Option SensorValue :=
  (controller.api.devices.lookup mac).map fun d => .num d.tx_utilization_6ghz

/-- Retrieve device 2GHz RX utilization. -/
def device_rx_utilization_2g_value_fn (controller : OmadaController) (mac : String) :
    Option SensorValue :=
  (controller.api.devices.lookup mac).map fun d => .num d.rx_utilization_2ghz

/-- Retrieve device 5GHz RX utilization. -/
def device_rx_utilization_5g_value_fn (controller : OmadaController) (mac : String) :
    Option SensorValue :=
  (controller.api.devices.lookup mac).map fun d => .num d.rx_utilization_5ghz

/-- Retrieve device 6GHz RX utilization. -/
def device_rx_utilization_6g_value_fn (controller : OmadaController) (mac : String) :
    Option SensorValue :=
  (controller.api.devices.lookup mac).map fun d => .num d.rx_utilization_6ghz

/-- Retrieve device 2GHz interference utilization. -/
def device_inter_utilization_2g_value_fn (controller : OmadaController) (mac : String) :
    Option SensorValue :=
  (controller.api.devices.lookup mac).map fun d => .num d.interference_utilization_2ghz

/-- Retrieve device 5GHz interference utilization. -/
def device_inter_utilization_5g_value_fn (controller : OmadaController) (mac : String) :
    Option SensorValue :=
  (controller.api.devices.lookup mac).map fun d => .num d.interference_utilization_5ghz

/-- Retrieve device 6GHz interference utilization. -/
def device_inter_utilization_6g_value_fn (controller : OmadaController) (mac : String) :
    Option SensorValue :=
  (controller.api.devices.lookup mac).map fun d => .num d.interference_utilization_6ghz

/-- Omada Sensor Entity Description: the fields of
`OmadaSensorEntityDescription` that the sensor module sets and reads
(key, category, naming flag, and the four predicate / accessor
functions).  `supported_fn` returns `Option Bool` because the per-band
variants index `controller.api.devices[mac]` and can raise `KeyError`
(`none`). -/
structure OmadaSensorEntityDescription where
  key : String
  entity_category : EntityCategory
  has_entity_name : Bool
  allowed_fn : OmadaController → String → Bool
  supported_fn : OmadaController → String → Option Bool
  available_fn : OmadaController → String → Bool
  value_fn : OmadaController → String → Option SensorValue

/-- Client descriptor registered under `DOWNLOAD_SENSOR`. -/
def client_download_description : OmadaSensorEntityDescription where
  key := DOWNLOAD_SENSOR
  entity_category := EntityCategory.diagnostic
  has_entity_name := true
  allowed_fn := fun controller mac =>
    controller.option_client_bandwidth_sensors &&
    controller.option_track_clients &&
    controller.is_client_allowed mac
  supported_fn := fun _ _ => some true
  available_fn := fun controller _ => controller.available
  value_fn := client_download_value_fn

/-- Client descriptor registered under `UPLOAD_SENSOR`. -/
def client_upload_description : OmadaSensorEntityDescription where
  key := UPLOAD_SENSOR
  entity_category := EntityCategory.diagnostic
  has_entity_name := true
  allowed_fn := fun controller mac =>
    controller.option_client_bandwidth_sensors &&
    controller.option_track_clients &&
    controller.is_client_allowed mac
  supported_fn := fun _ _ => some true
  available_fn := fun controller _ => controller.available
  value_fn := client_upload_value_fn

/-- Client descriptor registered under `RX_SENSOR`. -/
def client_rx_description : OmadaSensorEntityDescription where
  key := RX_SENSOR
  entity_category := EntityCategory.diagnostic
  has_entity_name := true
  allowed_fn := fun controller mac =>
    controller.option_client_bandwidth_sensors &&
    controller.option_track_clients &&
    controller.is_client_allowed mac
  supported_fn := fun _ _ => some true
  available_fn := fun controller _ => controller.available
  value_fn := client_rx_value_fn

/-- Client descriptor registered under `TX_SENSOR`. -/
def client_tx_description : OmadaSensorEntityDescription where
  key := TX_SENSOR
  entity_category := EntityCategory.diagnostic
  has_entity_name := true
  allowed_fn := fun controller mac =>
    controller.option_client_bandwidth_sensors &&
    controller.option_track_clients &&
    controller.is_client_allowed mac
  supported_fn := fun _ _ => some true
  available_fn := fun controller _ => controller.available
  value_fn := client_tx_value_fn

/-- Client descriptor registered under `UPTIME_SENSOR`. -/
def client_uptime_description : OmadaSensorEntityDescription where
  key := UPTIME_SENSOR
  entity_category := EntityCategory.diagnostic
  has_entity_name := true
  allowed_fn := fun controller mac =>
    controller.option_client_uptime_sensor &&
    controller.option_track_clients &&
    controller.is_client_allowed mac
  supported_fn := fun _ _ => some true
  available_fn := fun controller _ => controller.available
  value_fn := client_uptime_value_fn

/-- The `CLIENT_ENTITY_DESCRIPTIONS` dictionary, as an association list
in source order. -/
def CLIENT_ENTITY_DESCRIPTIONS : List (String × OmadaSensorEntityDescription) :=
  [(DOWNLOAD_SENSOR, client_download_description),
   (UPLOAD_SENSOR, client_upload_description),
   (RX_SENSOR, client_rx_description),
   (TX_SENSOR, client_tx_description),
   (UPTIME_SENSOR, client_uptime_description)]

/-- Device descriptor registered under `DOWNLOAD_SENSOR`. -/
def device_download_description : OmadaSensorEntityDescription where
  key := DOWNLOAD_SENSOR
  entity_category := EntityCategory.diagnostic
  has_entity_name := true
  allowed_fn := fun controller _ =>
    controller.option_device_bandwidth_sensors && controller.option_track_devices
  supported_fn := fun _ _ => some true
  available_fn := fun controller _ => controller.available
  value_fn := device_download_value_fn

/-- Device descriptor registered under `UPLOAD_SENSOR`. -/
def device_upload_description : OmadaSensorEntityDescription where
  key := UPLOAD_SENSOR
  entity_category := EntityCategory.diagnostic
  has_entity_name := true
  allowed_fn := fun controller _ =>
    controller.option_device_bandwidth_sensors && controller.option_track_devices
  supported_fn := fun _ _ => some true
  available_fn := fun controller _ => controller.available
  value_fn := device_upload_value_fn

/-- Device descriptor registered under `RX_SENSOR`. -/
def device_rx_description : OmadaSensorEntityDescription where
  key := RX_SENSOR
  entity_category := EntityCategory.diagnostic
  has_entity_name := true
  allowed_fn := fun controller _ =>
    controller.option_device_bandwidth_sensors && controller.option_track_devices
  supported_fn := fun _ _ => some true
  available_fn := fun controller _ => controller.available
  value_fn := device_rx_value_fn

/-- Device descriptor registered under `TX_SENSOR`. -/
def device_tx_description : OmadaSensorEntityDescription where
  key := TX_SENSOR
  entity_category := EntityCategory.diagnostic
  has_entity_name := true
  allowed_fn := fun controller _ =>
    controller.option_device_bandwidth_sensors && controller.option_track_devices
  supported_fn := fun _ _ => some true
  available_fn := fun controller _ => controller.available
  value_fn := device_tx_value_fn

/-- Device descriptor registered under `CPU_USAGE_SENSOR`. -/
def device_cpu_description : OmadaSensorEntityDescription where
  key := CPU_USAGE_SENSOR
  entity_category := EntityCategory.diagnostic
  has_entity_name := true
  allowed_fn := fun controller _ =>
    controller.option_device_statistics_sensors && controller.option_track_devices
  supported_fn := fun _ _ => some true
  available_fn := fun controller _ => controller.available
  value_fn := device_cpu_value_fn

/-- Device descriptor registered under `MEMORY_USAGE_SENSOR`. -/
def device_memory_description : OmadaSensorEntityDescription where
  key := MEMORY_USAGE_SENSOR
  entity_category := EntityCategory.diagnostic
  has_entity_name := true
  allowed_fn := fun controller _ =>
    controller.option_device_statistics_sensors && controller.option_track_devices
  supported_fn := fun _ _ => some true
  available_fn := fun controller _ => controller.available
  value_fn := device_memory_value_fn

/-- Device descriptor registered under `UPTIME_SENSOR`. -/
def device_uptime_description : OmadaSensorEntityDescription where
  key := UPTIME_SENSOR
  entity_category := EntityCategory.diagnostic
  has_entity_name := true
  allowed_fn := fun controller _ =>
    controller.option_device_statistics_sensors && controller.option_track_devices
  supported_fn := fun _ _ => some true
  available_fn := fun controller _ => controller.available
  value_fn := device_uptime_value_fn

/-- Device descriptor registered under `CLIENTS_SENSOR`. -/
def device_clients_description : OmadaSensorEntityDescription where
  key := CLIENTS_SENSOR
  entity_category := EntityCategory.diagnostic
  has_entity_name := true
  allowed_fn := fun controller _ =>
    controller.option_device_clients_sensors && controller.option_track_devices
  supported_fn := fun _ _ => some true
  available_fn := fun controller _ => controller.available
  value_fn := device_clients_value_fn

/-- Device descriptor registered under `CLIENTS_2G_SENSOR`.  Its
`supported_fn` reads `controller.api.devices[mac].radio_enabled_2ghz`. -/
def device_clients_2g_description : OmadaSensorEntityDescription where
  key := CLIENTS_2G_SENSOR
  entity_category := EntityCategory.diagnostic
  has_entity_name := true
  allowed_fn := fun controller _ =>
    controller.option_device_clients_sensors && controller.option_track_devices
  supported_fn := fun controller mac =>
    (controller.api.devices.lookup mac).map fun d => d.radio_enabled_2ghz
  available_fn := fun controller _ => controller.available
  value_fn := device_clients_2g_value_fn

/-- Device descriptor registered under `CLIENTS_5G_SENSOR`. -/
def device_clients_5g_description : OmadaSensorEntityDescription where
  key := CLIENTS_5G_SENSOR
  entity_category := EntityCategory.diagnostic
  has_entity_name := true
  allowed_fn := fun controller _ =>
    controller.option_device_clients_sensors && controller.option_track_devices
  supported_fn := fun controller mac =>
    (controller.api.devices.lookup mac).map fun d => d.radio_enabled_5ghz
  available_fn := fun controller _ => controller.available
  value_fn := device_clients_5g_value_fn

/-- Device descriptor registered under `CLIENTS_6G_SENSOR`. -/
def device_clients_6g_description : OmadaSensorEntityDescription where
  key := CLIENTS_6G_SENSOR
  entity_category := EntityCategory.diagnostic
  has_entity_name := true
  allowed_fn := fun controller _ =>
    controller.option_device_clients_sensors && controller.option_track_devices
  supported_fn := fun controller mac =>
    (controller.api.devices.lookup mac).map fun d => d.radio_enabled_6ghz
  available_fn := fun controller _ => controller.available
  value_fn := device_clients_6g_value_fn

/-- Device descriptor registered under `TX_UTILIZATION_2G_SENSOR`.  In
the source its `supported_fn` is the unconditional `lambda *_: True`,
not a radio-flag check. -/
def device_tx_utilization_2g_description : OmadaSensorEntityDescription where
  key := TX_UTILIZATION_2G_SENSOR
  entity_category := EntityCategory.diagnostic
  has_entity_name := true
  allowed_fn := fun controller _ =>
    controller.option_device_radio_utilization_sensors && controller.option_track_devices
  supported_fn := fun _ _ => some true
  available_fn := fun controller _ => controller.available
  value_fn := device_tx_utilization_2g_value_fn

/-- Device descriptor registered under `TX_UTILIZATION_5G_SENSOR`. -/
def device_tx_utilization_5g_description : OmadaSensorEntityDescription where
  key := TX_UTILIZATION_5G_SENSOR
  entity_category := EntityCategory.diagnostic
  has_entity_name := true
  allowed_fn := fun controller _ =>
    controller.option_device_radio_utilization_sensors && controller.option_track_devices
  supported_fn := fun controller mac =>
    (controller.api.devices.lookup mac).map fun d => d.radio_enabled_5ghz
  available_fn := fun controller _ => controller.available
  value_fn := device_tx_utilization_5g_value_fn

/-- Device descriptor registered under `TX_UTILIZATION_6G_SENSOR`. -/
def device_tx_utilization_6g_description : OmadaSensorEntityDescription where
  key := TX_UTILIZATION_6G_SENSOR
  entity_category := EntityCategory.diagnostic
  has_entity_name := true
  allowed_fn := fun controller _ =>
    controller.option_device_radio_utilization_sensors && controller.option_track_devices
  supported_fn := fun controller mac =>
    (controller.api.devices.lookup mac).map fun d => d.radio_enabled_6ghz
  available_fn := fun controller _ => controller.available
  value_fn := device_tx_utilization_6g_value_fn

/-- Device descriptor registered under `RX_UTILIZATION_2G_SENSOR`. -/
def device_rx_utilization_2g_description : OmadaSensorEntityDescription where
  key := RX_UTILIZATION_2G_SENSOR
  entity_category := EntityCategory.diagnostic
  has_entity_name := true
  allowed_fn := fun controller _ =>
    controller.option_device_radio_utilization_sensors && controller.option_track_devices
  supported_fn := fun controller mac =>
    (controller.api.devices.lookup mac).map fun d => d.radio_enabled_2ghz
  available_fn := fun controller _ => controller.available
  value_fn := device_rx_utilization_2g_value_fn

/-- Device descriptor registered under `RX_UTILIZATION_5G_SENSOR`. -/
def device_rx_utilization_5g_description : OmadaSensorEntityDescription where
  key := RX_UTILIZATION_5G_SENSOR
  entity_category := EntityCategory.diagnostic
  has_entity_name := true
  allowed_fn := fun controller _ =>
    controller.option_device_radio_utilization_sensors && controller.option_track_devices
  supported_fn := fun controller mac =>
    (controller.api.devices.lookup mac).map fun d => d.radio_enabled_5ghz
  available_fn := fun controller _ => controller.available
  value_fn := device_rx_utilization_5g_value_fn

/-- Device descriptor registered under `RX_UTILIZATION_6G_SENSOR`. -/
def device_rx_utilization_6g_description : OmadaSensorEntityDescription where
  key := RX_UTILIZATION_6G_SENSOR
  entity_category := EntityCategory.diagnostic
  has_entity_name := true
  allowed_fn := fun controller _ =>
    controller.option_device_radio_utilization_sensors && controller.option_track_devices
  supported_fn := fun controller mac =>
    (controller.api.devices.lookup mac).map fun d => d.radio_enabled_6ghz
  available_fn := fun controller _ => controller.available
  value_fn := device_rx_utilization_6g_value_fn

/-- Device descriptor registered under `INTER_UTILIZATION_2G_SENSOR`.
In the source its `supported_fn` is the unconditional `lambda *_: True`,
not a radio-flag check. -/
def device_inter_utilization_2g_description : OmadaSensorEntityDescription where
  key := INTER_UTILIZATION_2G_SENSOR
  entity_category := EntityCategory.diagnostic
  has_entity_name := true
  allowed_fn := fun controller _ =>
    controller.option_device_radio_utilization_sensors && controller.option_track_devices
  supported_fn := fun _ _ => some true
  available_fn := fun controller _ => controller.available
  value_fn := device_inter_utilization_2g_value_fn

/-- Device descriptor registered under `INTER_UTILIZATION_5G_SENSOR`. -/
def device_inter_utilization_5g_description : OmadaSensorEntityDescription where
  key := INTER_UTILIZATION_5G_SENSOR
  entity_category := EntityCategory.diagnostic
  has_entity_name := true
  allowed_fn := fun controller _ =>
    controller.option_device_radio_utilization_sensors && controller.option_track_devices
  supported_fn := fun controller mac =>
    (controller.api.devices.lookup mac).map fun d => d.radio_enabled_5ghz
  available_fn := fun controller _ => controller.available
  value_fn := device_inter_utilization_5g_value_fn

/-- Device descriptor registered under `INTER_UTILIZATION_6G_SENSOR`. -/
def device_inter_utilization_6g_description : OmadaSensorEntityDescription where
  key := INTER_UTILIZATION_6G_SENSOR
  entity_category := EntityCategory.diagnostic
  has_entity_name := true
  allowed_fn := fun controller _ =>
    controller.option_device_radio_utilization_sensors && controller.option_track_devices
  supported_fn := fun controller mac =>
    (controller.api.devices.lookup mac).map fun d => d.radio_enabled_6ghz
  available_fn := fun controller _ => controller.available
  value_fn := device_inter_utilization_6g_value_fn

/-- The `DEVICE_ENTITY_DESCRIPTIONS` dictionary, as an association list
in source order. -/
def DEVICE_ENTITY_DESCRIPTIONS : List (String × OmadaSensorEntityDescription) :=
  [(DOWNLOAD_SENSOR, device_download_description),
   (UPLOAD_SENSOR, device_upload_description),
   (RX_SENSOR, device_rx_description),
   (TX_SENSOR, device_tx_description),
   (CPU_USAGE_SENSOR, device_cpu_description),
   (MEMORY_USAGE_SENSOR, device_memory_description),
   (UPTIME_SENSOR, device_uptime_description),
   (CLIENTS_SENSOR, device_clients_description),
   (CLIENTS_2G_SENSOR, device_clients_2g_description),
   (CLIENTS_5G_SENSOR, device_clients_5g_description),
   (CLIENTS_6G_SENSOR, device_clients_6g_description),
   (TX_UTILIZATION_2G_SENSOR, device_tx_utilization_2g_description),
   (TX_UTILIZATION_5G_SENSOR, device_tx_utilization_5g_description),
   (TX_UTILIZATION_6G_SENSOR, device_tx_utilization_6g_description),
   (RX_UTILIZATION_2G_SENSOR, device_rx_utilization_2g_description),
   (RX_UTILIZATION_5G_SENSOR, device_rx_utilization_5g_description),
   (RX_UTILIZATION_6G_SENSOR, device_rx_utilization_6g_description),
   (INTER_UTILIZATION_2G_SENSOR, device_inter_utilization_2g_description),
   (INTER_UTILIZATION_5G_SENSOR, device_inter_utilization_5g_description),
   (INTER_UTILIZATION_6G_SENSOR, device_inter_utilization_6g_description)]

/-- The sensor entity: binds a descriptor to one MAC address and caches
the last published native value (`self._attr_native_value`).  The live
reference `self.controller` is modelled by passing the controller state
explicitly to `init` and `async_update`. -/
structure OmadaSensorEntity where
  mac : String
  entity_description : OmadaSensorEntityDescription
  attr_native_value : SensorValue

/-- Constructor (`OmadaSensorEntity.__init__`): stores the MAC and
descriptor and initialises the cached native value from
`value_fn(controller, mac)`.  `none` models the constructor propagating
a `KeyError` raised by the value function. -/
def OmadaSensorEntity.init (mac : String) (controller : OmadaController)
    (description : OmadaSensorEntityDescription) : Option OmadaSensorEntity :=
  (description.value_fn controller mac).map fun v =>
    { mac := mac, entity_description := description, attr_native_value := v }

/-- Refresh step (`OmadaSensorEntity.async_update`): re-reads the value
through the descriptor's value function; when it differs from the cached
native value, caches it and propagates `super().async_update()`.  The
returned `Bool` records whether the update was propagated; `none` models
a `KeyError` raised by the value function. -/
def OmadaSensorEntity.async_update (e : OmadaSensorEntity)
    (controller : OmadaController) : Option (OmadaSensorEntity × Bool) :=
  (e.entity_description.value_fn controller e.mac).map fun value =>
    if value ≠ e.attr_native_value then
      ({ e with attr_native_value := value }, true)
    else
      (e, false)

/-- Lookup of a device descriptor's supported predicate through the
`DEVICE_ENTITY_DESCRIPTIONS` table: outer `Option` is presence of the
key in the table, inner `Option Bool` the predicate's (possibly
raising) result. -/
def supportedOf (key : String) (c : OmadaController) (mac : String) :
    Option (Option Bool) :=
  (DEVICE_ENTITY_DESCRIPTIONS.lookup key).map fun d => d.supported_fn c mac

/-- Example client record present in both `clients` and `known_clients`. -/
def clientA : OmadaClient where
  download := 4000000
  upload := 6000000
  rx_rate := 2500000
  tx_rate := 1500000
  uptime := 300

/-- Example client record present only in `known_clients`. -/
def clientB : OmadaClient where
  download := 7000000
  upload := 9000000
  rx_rate := 100
  tx_rate := 200
  uptime := 50

/-- Example device record with the 2.4GHz radio disabled and the 5GHz
radio enabled. -/
def deviceD : Device where
  download := 8000000
  upload := 2000000
  rx_rate := 3000000
  tx_rate := 5000000
  cpu := 9
  memory := 40
  uptime := 600
  clients := 7
  clients_2ghz := 1
  clients_5ghz := 4
  clients_6ghz := 2
  tx_utilization_2ghz := 11
  tx_utilization_5ghz := 12
  tx_utilization_6ghz := 13
  rx_utilization_2ghz := 21
  rx_utilization_5ghz := 22
  rx_utilization_6ghz := 23
  interference_utilization_2ghz := 31
  interference_utilization_5ghz := 32
  interference_utilization_6ghz := 33
  radio_enabled_2ghz := false
  radio_enabled_5ghz := true
  radio_enabled_6ghz := false

/-- Example controller state: client "aa" connected and known, client
"bb" known but not connected, device "dd" present, MAC "zz" unknown
everywhere. -/
def exController : OmadaController where
  api :=
    { clients := [("aa", clientA)]
      known_clients := [("aa", clientA), ("bb", clientB)]
      devices := [("dd", deviceD)] }
  available := true
  now := 1000
  option_track_clients := true
  option_track_devices := true
  option_client_bandwidth_sensors := true
  option_client_uptime_sensor := true
  option_device_bandwidth_sensors := true
  option_device_statistics_sensors := true
  option_device_clients_sensors := true
  option_device_radio_utilization_sensors := true
  is_client_allowed := fun _ => true

/-- Example entity: the device CPU sensor bound to MAC "dd", with a
cached value that no longer matches controller state. -/
def exEntityStale : OmadaSensorEntity where
  mac := "dd"
  entity_description := device_cpu_description
  attr_native_value := .num 0

/-- Example entity: the device CPU sensor bound to MAC "dd", whose
cached value already equals the current reading. -/
def exEntityFresh : OmadaSensorEntity where
  mac := "dd"
  entity_description := device_cpu_description
  attr_native_value := .num 9

/-- C3: for a MAC absent from `controller.api.clients` the client rx and
tx value functions return 0 and the client uptime value function returns
`None`; for a present MAC they return the stored `rx_rate` / `tx_rate`
divided by 1000000 and the current time minus the stored uptime seconds,
respectively. -/
theorem C3_client_guarded_defaults (c : OmadaController) (mac : String) :
    (c.api.clients.lookup mac = none →
      client_rx_value_fn c mac = some (.num 0) ∧
      client_tx_value_fn c mac = some (.num 0) ∧
      client_uptime_value_fn c mac = some .null) ∧
    (∀ cl, c.api.clients.lookup mac = some cl →
      client_rx_value_fn c mac = some (.num (cl.rx_rate / 1000000)) ∧
      client_tx_value_fn c mac = some (.num (cl.tx_rate / 1000000)) ∧
      client_uptime_value_fn c mac = some (.time (c.now - cl.uptime))) := by
  constructor
  · intro h
    simp [client_rx_value_fn, client_tx_value_fn, client_uptime_value_fn, h]
  · intro cl h
    simp [client_rx_value_fn, client_tx_value_fn, client_uptime_value_fn, h]

/-- Witness for C3: evaluated on `exController` at the connected MAC
"aa" and the unknown MAC "zz". -/
theorem C3_client_guarded_defaults_witness :
    client_rx_value_fn exController "aa" = some (.num (5 / 2)) ∧
    client_uptime_value_fn exController "aa" = some (.time 700) ∧
    client_rx_value_fn exController "zz" = some (.num 0) ∧
    client_uptime_value_fn exController "zz" = some .null := by
  have hp := (C3_client_guarded_defaults exController "aa").2 clientA rfl
  have ha := (C3_client_guarded_defaults exController "zz").1 rfl
  refine ⟨?_, ?_, ha.1, ha.2.2⟩
  · rw [hp.1]
    simp only [clientA, Option.some.injEq, SensorValue.num.injEq]
    norm_num
  · rw [hp.2.2]
    simp only [exController, clientA, Option.some.injEq, SensorValue.time.injEq]
    norm_num

/-- C5: for every MAC present in the corresponding mapping, the download
and upload value functions (client and device) return exactly the stored
byte counter divided by 1000000, and the rx and tx rate value functions
return exactly the stored rate divided by 1000000, with no other
transformation. -/
theorem C5_unit_conversion (c : OmadaController) (mac : String) :
    (∀ cl, c.api.known_clients.lookup mac = some cl →
       client_download_value_fn c mac = some (.num (cl.download / 1000000)) ∧
       client_upload_value_fn c mac = some (.num (cl.upload / 1000000))) ∧
    (∀ cl, c.api.clients.lookup mac = some cl →
       client_rx_value_fn c mac = some (.num (cl.rx_rate / 1000000)) ∧
       client_tx_value_fn c mac = some (.num (cl.tx_rate / 1000000))) ∧
    (∀ d, c.api.devices.lookup mac = some d →
       device_download_value_fn c mac = some (.num (d.download / 1000000)) ∧
       device_upload_value_fn c mac = some (.num (d.upload / 1000000)) ∧
       device_rx_value_fn c mac = some (.num (d.rx_rate / 1000000)) ∧
       device_tx_value_fn c mac = some (.num (d.tx_rate / 1000000))) := by
  refine ⟨fun cl h => ?_, fun cl h => ?_, fun d h => ?_⟩ <;>
    simp [client_download_value_fn, client_upload_value_fn, client_rx_value_fn,
      client_tx_value_fn, device_download_value_fn, device_upload_value_fn,
      device_rx_value_fn, device_tx_value_fn, h]

/-- Witness for C5: evaluated on `exController` at the known client "bb"
and the device "dd". -/
theorem C5_unit_conversion_witness :
    client_download_value_fn exController "bb" = some (.num 7) ∧
    device_tx_value_fn exController "dd" = some (.num 5) := by
  have hk := (C5_unit_conversion exController "bb").1 clientB rfl
  have hd := (C5_unit_conversion exController "dd").2.2 deviceD rfl
  constructor
  · rw [hk.1]
    simp only [clientB, Option.some.injEq, SensorValue.num.injEq]
    norm_num
  · rw [hd.2.2.2]
    simp only [deviceD, Option.some.injEq, SensorValue.num.injEq]
    norm_num

/-- C6: for a MAC present in `controller.api.devices`,
`device_uptime_value_fn` returns the current time minus the device
record's uptime seconds; for a MAC present in `controller.api.clients`,
`client_uptime_value_fn` returns the current time minus the client
record's uptime seconds. -/
theorem C6_uptime_arithmetic (c : OmadaController) (mac : String) :
    (∀ d, c.api.devices.lookup mac = some d →
       device_uptime_value_fn c mac = some (.time (c.now - d.uptime))) ∧
    (∀ cl, c.api.clients.lookup mac = some cl →
       client_uptime_value_fn c mac = some (.time (c.now - cl.uptime))) := by
  refine ⟨fun d h => ?_, fun cl h => ?_⟩ <;>
    simp [device_uptime_value_fn, client_uptime_value_fn, h]

/-- Witness for C6: evaluated on `exController` at device "dd" (uptime
600 at time 1000) and client "aa" (uptime 300 at time 1000). -/
theorem C6_uptime_arithmetic_witness :
    device_uptime_value_fn exController "dd" = some (.time 400) ∧
    client_uptime_value_fn exController "aa" = some (.time 700) := by
  have hd := (C6_uptime_arithmetic exController "dd").1 deviceD rfl
  have hc := (C6_uptime_arithmetic exController "aa").2 clientA rfl
  constructor
  · rw [hd]
    simp only [exController, deviceD, Option.some.injEq, SensorValue.time.injEq]
    norm_num
  · rw [hc]
    simp only [exController, clientA, Option.some.injEq, SensorValue.time.injEq]
    norm_num

/-- C9: the client download and upload value functions read
`known_clients` and fail with a key-lookup error when the MAC is absent
from it, while the rx, tx and uptime client accessors read `clients` and
guard absence; a MAC known but not connected therefore yields download
and upload values together with rx 0, tx 0 and a null uptime. -/
theorem C9_known_vs_connected (c : OmadaController) (mac : String)
    (cl : OmadaClient)
    (hk : c.api.known_clients.lookup mac = some cl)
    (hc : c.api.clients.lookup mac = none) :
    client_download_value_fn c mac = some (.num (cl.download / 1000000)) ∧
    client_upload_value_fn c mac = some (.num (cl.upload / 1000000)) ∧
    client_rx_value_fn c mac = some (.num 0) ∧
    client_tx_value_fn c mac = some (.num 0) ∧
    client_uptime_value_fn c mac = some .null ∧
    (∀ m, c.api.known_clients.lookup m = none →
       client_download_value_fn c m = none ∧
       client_upload_value_fn c m = none) := by
  refine ⟨?_, ?_, ?_, ?_, ?_, fun m hm => ⟨?_, ?_⟩⟩
  · simp [client_download_value_fn, hk]
  · simp [client_upload_value_fn, hk]
  · simp [client_rx_value_fn, hc]
  · simp [client_tx_value_fn, hc]
  · simp [client_uptime_value_fn, hc]
  · simp [client_download_value_fn, hm]
  · simp [client_upload_value_fn, hm]

/-- Witness for C9: on `exController` the MAC "bb" is known but not
connected; it has a download value while rx is 0 and the uptime is
null. -/
theorem C9_known_vs_connected_witness :
    client_download_value_fn exController "bb" = some (.num 7) ∧
    client_rx_value_fn exController "bb" = some (.num 0) ∧
    client_uptime_value_fn exController "bb" = some .null := by
  have h := C9_known_vs_connected exController "bb" clientB rfl rfl
  refine ⟨?_, h.2.2.1, h.2.2.2.2.1⟩
  rw [h.1]
  simp only [clientB, Option.some.injEq, SensorValue.num.injEq]
  norm_num

/-- C2 counterexample: the MAC "zz" is absent from every mapping of
`exController`, yet `client_download_value_fn` and (for example)
`device_cpu_value_fn` fail with a key-lookup error (`none`) instead of
returning a default of zero or null: the claim that every descriptor
value function is total over all MAC inputs is false. -/
theorem C2_counterexample :
    exController.api.known_clients.lookup "zz" = none ∧
    client_download_value_fn exController "zz" = none ∧
    exController.api.devices.lookup "zz" = none ∧
    device_cpu_value_fn exController "zz" = none := ⟨rfl, rfl, rfl, rfl⟩

/-- C2 amended: only the client rx, tx and uptime value functions guard
absence of the MAC (returning the defaults 0, 0 and null); the client
download and upload value functions and all twenty-one device value
functions fail with a key-lookup error when the MAC is absent from the
mapping they read. -/
theorem C2_value_fn_guarding (c : OmadaController) (mac : String)
    (hk : c.api.known_clients.lookup mac = none)
    (hc : c.api.clients.lookup mac = none)
    (hd : c.api.devices.lookup mac = none) :
    client_rx_value_fn c mac = some (.num 0) ∧
    client_tx_value_fn c mac = some (.num 0) ∧
    client_uptime_value_fn c mac = some .null ∧
    client_download_value_fn c mac = none ∧
    client_upload_value_fn c mac = none ∧
    device_download_value_fn c mac = none ∧
    device_upload_value_fn c mac = none ∧
    device_rx_value_fn c mac = none ∧
    device_tx_value_fn c mac = none ∧
    device_cpu_value_fn c mac = none ∧
    device_memory_value_fn c mac = none ∧
    device_uptime_value_fn c mac = none ∧
    device_clients_value_fn c mac = none ∧
    device_clients_2g_value_fn c mac = none ∧
    device_clients_5g_value_fn c mac = none ∧
    device_clients_6g_value_fn c mac = none ∧
    device_tx_utilization_2g_value_fn c mac = none ∧
    device_tx_utilization_5g_value_fn c mac = none ∧
    device_tx_utilization_6g_value_fn c mac = none ∧
    device_rx_utilization_2g_value_fn c mac = none ∧
    device_rx_utilization_5g_value_fn c mac = none ∧
    device_rx_utilization_6g_value_fn c mac = none ∧
    device_inter_utilization_2g_value_fn c mac = none ∧
    device_inter_utilization_5g_value_fn c mac = none ∧
    device_inter_utilization_6g_value_fn c mac = none := by
  simp [client_rx_value_fn, client_tx_value_fn, client_uptime_value_fn,
    client_download_value_fn, client_upload_value_fn,
    device_download_value_fn, device_upload_value_fn, device_rx_value_fn,
    device_tx_value_fn, device_cpu_value_fn, device_memory_value_fn,
    device_uptime_value_fn, device_clients_value_fn,
    device_clients_2g_value_fn, device_clients_5g_value_fn,
    device_clients_6g_value_fn, device_tx_utilization_2g_value_fn,
    device_tx_utilization_5g_value_fn, device_tx_utilization_6g_value_fn,
    device_rx_utilization_2g_value_fn, device_rx_utilization_5g_value_fn,
    device_rx_utilization_6g_value_fn, device_inter_utilization_2g_value_fn,
    device_inter_utilization_5g_value_fn, device_inter_utilization_6g_value_fn,
    hk, hc, hd]

/-- Witness for the amended C2: evaluated on `exController` at the
unknown MAC "zz". -/
theorem C2_value_fn_guarding_witness :
    client_rx_value_fn exController "zz" = some (.num 0) ∧
    client_download_value_fn exController "zz" = none ∧
    device_uptime_value_fn exController "zz" = none := by
  have h := C2_value_fn_guarding exController "zz" rfl rfl rfl
  exact ⟨h.1, h.2.2.2.1, h.2.2.2.2.2.2.2.2.2.2.2.1⟩

/-- C1 counterexample: on `exController` the device "dd" has the 2.4GHz
radio disabled, yet the supported predicates of the 2.4GHz TX-utilization
and 2.4GHz interference descriptors in `DEVICE_ENTITY_DESCRIPTIONS`
return true, so a per-band supported predicate is not always the
corresponding radio-enabled flag. -/
theorem C1_counterexample :
    (exController.api.devices.lookup "dd").map Device.radio_enabled_2ghz
      = some false ∧
    supportedOf TX_UTILIZATION_2G_SENSOR exController "dd" = some (some true) ∧
    supportedOf INTER_UTILIZATION_2G_SENSOR exController "dd" = some (some true) :=
  ⟨rfl, rfl, rfl⟩

/-- C1 amended: for a MAC present in `controller.api.devices`, the
supported predicate of each per-band device descriptor returns the
device record's radio-enabled flag for the corresponding band, except
the 2.4GHz TX-utilization and 2.4GHz interference descriptors, whose
supported predicates return true unconditionally. -/
theorem C1_per_band_supported (c : OmadaController) (mac : String) (d : Device)
    (h : c.api.devices.lookup mac = some d) :
    supportedOf CLIENTS_2G_SENSOR c mac = some (some d.radio_enabled_2ghz) ∧
    supportedOf CLIENTS_5G_SENSOR c mac = some (some d.radio_enabled_5ghz) ∧
    supportedOf CLIENTS_6G_SENSOR c mac = some (some d.radio_enabled_6ghz) ∧
    supportedOf TX_UTILIZATION_2G_SENSOR c mac = some (some true) ∧
    supportedOf TX_UTILIZATION_5G_SENSOR c mac = some (some d.radio_enabled_5ghz) ∧
    supportedOf TX_UTILIZATION_6G_SENSOR c mac = some (some d.radio_enabled_6ghz) ∧
    supportedOf RX_UTILIZATION_2G_SENSOR c mac = some (some d.radio_enabled_2ghz) ∧
    supportedOf RX_UTILIZATION_5G_SENSOR c mac = some (some d.radio_enabled_5ghz) ∧
    supportedOf RX_UTILIZATION_6G_SENSOR c mac = some (some d.radio_enabled_6ghz) ∧
    supportedOf INTER_UTILIZATION_2G_SENSOR c mac = some (some true) ∧
    supportedOf INTER_UTILIZATION_5G_SENSOR c mac = some (some d.radio_enabled_5ghz) ∧
    supportedOf INTER_UTILIZATION_6G_SENSOR c mac = some (some d.radio_enabled_6ghz) := by
  refine ⟨?_, ?_, ?_, ?_, ?_, ?_, ?_, ?_, ?_, ?_, ?_, ?_⟩ <;>
    simp +decide [supportedOf, DEVICE_ENTITY_DESCRIPTIONS, List.lookup,
      DOWNLOAD_SENSOR, UPLOAD_SENSOR, RX_SENSOR, TX_SENSOR, CPU_USAGE_SENSOR,
      MEMORY_USAGE_SENSOR, UPTIME_SENSOR, CLIENTS_SENSOR, CLIENTS_2G_SENSOR,
      CLIENTS_5G_SENSOR, CLIENTS_6G_SENSOR, TX_UTILIZATION_2G_SENSOR,
      TX_UTILIZATION_5G_SENSOR, TX_UTILIZATION_6G_SENSOR,
      RX_UTILIZATION_2G_SENSOR, RX_UTILIZATION_5G_SENSOR,
      RX_UTILIZATION_6G_SENSOR, INTER_UTILIZATION_2G_SENSOR,
      INTER_UTILIZATION_5G_SENSOR, INTER_UTILIZATION_6G_SENSOR,
      device_clients_2g_description, device_clients_5g_description,
      device_clients_6g_description, device_tx_utilization_2g_description,
      device_tx_utilization_5g_description, device_tx_utilization_6g_description,
      device_rx_utilization_2g_description, device_rx_utilization_5g_description,
      device_rx_utilization_6g_description, device_inter_utilization_2g_description,
      device_inter_utilization_5g_description, device_inter_utilization_6g_description,
      h]

/-- Witness for the amended C1: evaluated on `exController` at device
"dd", whose 2.4GHz radio is disabled and 5GHz radio enabled. -/
theorem C1_per_band_supported_witness :
    supportedOf CLIENTS_2G_SENSOR exController "dd" = some (some false) ∧
    supportedOf TX_UTILIZATION_5G_SENSOR exController "dd" = some (some true) ∧
    supportedOf TX_UTILIZATION_2G_SENSOR exController "dd" = some (some true) := by
  have h := C1_per_band_supported exController "dd" deviceD rfl
  exact ⟨h.1, h.2.2.2.2.1, h.2.2.2.1⟩

/-- C4: when the descriptor value function succeeds, `async_update`
caches the newly read value and propagates an update exactly when the
value differs from the cached native value; when the value is unchanged
the entity is left entirely unchanged and no update is propagated. -/
theorem C4_update_iff_changed (c : OmadaController) (e : OmadaSensorEntity)
    (v : SensorValue)
    (h : e.entity_description.value_fn c e.mac = some v) :
    (e.async_update c).map (fun p => (p.1.attr_native_value, p.2))
        = some (v, if v = e.attr_native_value then false else true) ∧
    (v = e.attr_native_value → e.async_update c = some (e, false)) := by
  constructor
  · by_cases hv : v = e.attr_native_value <;>
      simp [OmadaSensorEntity.async_update, h, hv]
  · intro hv
    simp [OmadaSensorEntity.async_update, h, hv]

/-- Witness for C4: the stale entity (cached 0, current cpu reading 9)
republishes, and the fresh entity (cached 9) is returned unchanged with
no propagation. -/
theorem C4_update_iff_changed_witness :
    (exEntityStale.async_update exController).map
        (fun p => (p.1.attr_native_value, p.2)) = some (.num 9, true) ∧
    exEntityFresh.async_update exController = some (exEntityFresh, false) := by
  have hs := C4_update_iff_changed exController exEntityStale (.num 9) rfl
  have hf := C4_update_iff_changed exController exEntityFresh (.num 9) rfl
  refine ⟨?_, hf.2 rfl⟩
  rw [hs.1, if_neg]
  simp only [exEntityStale, SensorValue.num.injEq]
  norm_num

/-- C8: immediately after construction the cached native value equals
the descriptor value function applied to the controller and the MAC,
and after every successful `async_update` the cached native value
equals the value read by that update. -/
theorem C8_cached_value (c : OmadaController) (mac : String)
    (desc : OmadaSensorEntityDescription) (e : OmadaSensorEntity) :
    (∀ v, desc.value_fn c mac = some v →
       OmadaSensorEntity.init mac c desc
         = some { mac := mac, entity_description := desc,
                  attr_native_value := v }) ∧
    (∀ v, e.entity_description.value_fn c e.mac = some v →
       (e.async_update c).map (fun p => p.1.attr_native_value) = some v) := by
  constructor
  · intro v hv
    simp [OmadaSensorEntity.init, hv]
  · intro v hv
    by_cases h : v = e.attr_native_value <;>
      simp [OmadaSensorEntity.async_update, hv, h]

/-- Witness for C8: constructing the device CPU sensor for "dd" caches
the reading 9, and updating the stale entity caches the reading 9. -/
theorem C8_cached_value_witness :
    OmadaSensorEntity.init "dd" exController device_cpu_description
      = some { mac := "dd", entity_description := device_cpu_description,
               attr_native_value := .num 9 } ∧
    (exEntityStale.async_update exController).map
        (fun p => p.1.attr_native_value) = some (.num 9) := by
  have h := C8_cached_value exController "dd" device_cpu_description exEntityStale
  exact ⟨h.1 (.num 9) rfl, h.2 (.num 9) rfl⟩

/-- C7: for every descriptor in either table, the available predicate
returns exactly the controller's `available` flag and is independent of
the MAC argument. -/
theorem C7_available_is_controller_available (key : String)
    (d : OmadaSensorEntityDescription) (c : OmadaController)
    (mac mac2 : String)
    (h : (key, d) ∈ CLIENT_ENTITY_DESCRIPTIONS ∨
         (key, d) ∈ DEVICE_ENTITY_DESCRIPTIONS) :
    d.available_fn c mac = c.available ∧
    d.available_fn c mac = d.available_fn c mac2 := by
  rcases h with h | h <;> fin_cases h <;> exact ⟨rfl, rfl⟩

/-- Witness for C7: evaluated for one client descriptor and one device
descriptor on `exController` with the two MACs "aa" and "bb". -/
theorem C7_available_is_controller_available_witness :
    client_download_description.available_fn exController "aa"
      = exController.available ∧
    device_uptime_description.available_fn exController "aa"
      = device_uptime_description.available_fn exController "bb" := by
  have h1 := C7_available_is_controller_available DOWNLOAD_SENSOR
    client_download_description exController "aa" "bb"
    (Or.inl (by simp [CLIENT_ENTITY_DESCRIPTIONS]))
  have h2 := C7_available_is_controller_available UPTIME_SENSOR
    device_uptime_description exController "aa" "bb"
    (Or.inr (by simp [DEVICE_ENTITY_DESCRIPTIONS]))
  exact ⟨h1.1, h2.2⟩

/-- C10: every table entry's descriptor key matches its dictionary key,
is diagnostic, and has `has_entity_name`; a client descriptor's allowed
predicate implies `option_track_clients` and `is_client_allowed mac`,
and a device descriptor's allowed predicate implies
`option_track_devices` and ignores the MAC argument. -/
theorem C10_table_invariants (key : String) (d : OmadaSensorEntityDescription)
    (c : OmadaController) (mac mac2 : String) :
    ((key, d) ∈ CLIENT_ENTITY_DESCRIPTIONS →
       d.key = key ∧ d.entity_category = EntityCategory.diagnostic ∧
       d.has_entity_name = true ∧
       (d.allowed_fn c mac = true →
          c.option_track_clients = true ∧ c.is_client_allowed mac = true)) ∧
    ((key, d) ∈ DEVICE_ENTITY_DESCRIPTIONS →
       d.key = key ∧ d.entity_category = EntityCategory.diagnostic ∧
       d.has_entity_name = true ∧
       (d.allowed_fn c mac = true → c.option_track_devices = true) ∧
       d.allowed_fn c mac = d.allowed_fn c mac2) := by
  constructor
  · intro h
    fin_cases h <;> refine ⟨rfl, rfl, rfl, fun hall => ?_⟩ <;>
      (simp only [client_download_description, client_upload_description,
        client_rx_description, client_tx_description, client_uptime_description,
        Bool.and_eq_true] at hall
       exact ⟨hall.1.2, hall.2⟩)
  · intro h
    fin_cases h <;> refine ⟨rfl, rfl, rfl, fun hall => ?_, rfl⟩ <;>
      (simp only [device_download_description, device_upload_description,
        device_rx_description, device_tx_description, device_cpu_description,
        device_memory_description, device_uptime_description,
        device_clients_description, device_clients_2g_description,
        device_clients_5g_description, device_clients_6g_description,
        device_tx_utilization_2g_description,
        device_tx_utilization_5g_description,
        device_tx_utilization_6g_description,
        device_rx_utilization_2g_description,
        device_rx_utilization_5g_description,
        device_rx_utilization_6g_description,
        device_inter_utilization_2g_description,
        device_inter_utilization_5g_description,
        device_inter_utilization_6g_description,
        Bool.and_eq_true] at hall
       exact hall.2)

/-- Witness for C10: evaluated for the client download descriptor and
the device uptime descriptor on `exController`. -/
theorem C10_table_invariants_witness :
    client_download_description.key = DOWNLOAD_SENSOR ∧
    exController.option_track_clients = true ∧
    exController.is_client_allowed "aa" = true ∧
    exController.option_track_devices = true ∧
    device_uptime_description.allowed_fn exController "aa"
      = device_uptime_description.allowed_fn exController "bb" := by
  have hc := (C10_table_invariants DOWNLOAD_SENSOR client_download_description
      exController "aa" "bb").1 (by simp [CLIENT_ENTITY_DESCRIPTIONS])
  have hd := (C10_table_invariants UPTIME_SENSOR device_uptime_description
      exController "aa" "bb").2 (by simp [DEVICE_ENTITY_DESCRIPTIONS])
  have hall := hc.2.2.2 rfl
  exact ⟨hc.1, hall.1, hall.2, hd.2.2.2.1 rfl, hd.2.2.2.2⟩

end Omada
